import Mathlib

/-!
Shallow embedding of `gensim/corpora/indexedcorpus.py`.

The module defines `IndexedCorpus`, which loads a pickled offset index at
construction time and supports `corpus[docno]` random access by delegating
to the subclass method `docbyoffset` on the offset stored at position
`docno` of the index.  `saveIndexedCorpus` drives a serializer's
`saveCorpus`, and pickles the returned offset sequence to the index file,
raising `NotImplementedError` when the serializer returns no offsets.

Modelling choices:
  * byte offsets are `Nat`; the loaded index is a `List Nat`;
  * the filesystem is a map from path to optional file content, where a
    content is either a valid pickle of an offset list or unreadable data;
  * `utils.unpickle` failures keep their kind (`fileMissing`/`malformed`)
    so that the constructor's bare `except:` clause, which absorbs every
    kind, can be stated faithfully;
  * Python list subscripting with an `Int` index follows CPython semantics:
    a negative index is first shifted by the length, then a bounds check
    raises `IndexError`;
  * `__getitem__` is embedded in state-passing style (`getitemS`), making
    the absence of mutation of `self` explicit.
-/

/-- The Python exception classes this module can raise. -/
inductive PyError where
  | runtimeError (msg : String)
  | indexError
  | notImplementedError (msg : String)
deriving DecidableEq

/-- Content of a file on disk: either a valid pickle of an offset
sequence, or data that `unpickle` cannot read (corrupt, wrong format). -/
inductive FileContent where
  | pickled (offsets : List Nat)
  | corrupt
deriving DecidableEq

/-- The filesystem: each path holds a file content or nothing. -/
abbrev FS := String → Option FileContent

/-- Outcome of `utils.unpickle`, keeping the failure kind distinct so the
uniform absorption by the constructor can be stated. -/
inductive UnpickleResult where
  | ok (offsets : List Nat)
  | fileMissing
  | malformed
deriving DecidableEq

namespace utils

/-- `utils.unpickle(fname)`: read and deserialize the file at `fname`. -/
def unpickle (fs : FS) (fname : String) : UnpickleResult :=
  match fs fname with
  | none => UnpickleResult.fileMissing
  | some FileContent.corrupt => UnpickleResult.malformed
  | some (FileContent.pickled offsets) => UnpickleResult.ok offsets

/-- `utils.pickle(obj, fname)`: serialize `offsets` to the file at
`fname`, overwriting any existing file there. -/
def pickle (fs : FS) (offsets : List Nat) (fname : String) : FS :=
  fun p => if p = fname then some (FileContent.pickled offsets) else fs p

end utils

/-- CPython semantics of `lst[i]` for an `int` subscript: a negative index
is shifted by `len(lst)` before the bounds check. -/
def pyIndex (n : Nat) (i : Int) : Int :=
  if i < 0 then i + n else i

/-- `lst[i]` on a Python list with an `int` subscript: returns the element
or raises `IndexError`. -/
def pyListGet {α : Type} (xs : List α) (i : Int) : Except PyError α :=
  if h : 0 ≤ pyIndex xs.length i ∧ (pyIndex xs.length i).toNat < xs.length then
    Except.ok (xs.get ⟨(pyIndex xs.length i).toNat, h.2⟩)
  else
    Except.error PyError.indexError

/-- A serializer class, as used by `saveIndexedCorpus`: its `__name__` and
its `saveCorpus(fname, corpus)` classmethod, which returns the byte offset
sequence of the written documents, or `None` (here `none`) when the class
does not support offset reporting. -/
structure Serializer (Doc : Type) where
  name : String
  saveCorpus : String → List Doc → Option (List Nat)

/-- The `IndexedCorpus` handle: the subclass-provided `docbyoffset` method
and the `self.index` field set by `__init__` (`none` models Python
`None`). -/
structure IndexedCorpus (Doc : Type) where
  docbyoffset : Nat → Doc
  index : Option (List Nat)

/-- `IndexedCorpus.__init__(fname, index_fname=None)`: resolve the index
path (defaulting to `fname + ".index"`), try to unpickle it, and on any
failure whatsoever set `self.index = None`. -/
def IndexedCorpus.init {Doc : Type} (fs : FS) (docbyoffset : Nat → Doc)
    (fname : String) (index_fname : Option String) : IndexedCorpus Doc :=
  match utils.unpickle fs (match index_fname with
                     | none => fname ++ ".index"
                     | some f => f) with
  | UnpickleResult.ok offsets => ⟨docbyoffset, some offsets⟩
  | UnpickleResult.fileMissing => ⟨docbyoffset, none⟩
  | UnpickleResult.malformed => ⟨docbyoffset, none⟩

/-- `IndexedCorpus.saveIndexedCorpus(serializer, fname, corpus,
index_fname=None)`: resolve the index path, call the serializer's
`saveCorpus`, raise `NotImplementedError` naming the serializer when it
returns `None`, and otherwise pickle the offsets to the index path.  The
result pairs the raised-or-returned outcome with the filesystem after the
call (the serializer's own write of the storage file is the external
collaborator's effect and is not part of this module's state). -/
def saveIndexedCorpus {Doc : Type} (serializer : Serializer Doc) (fs : FS)
    (fname : String) (corpus : List Doc) (index_fname : Option String) :
    Except PyError Unit × FS :=
  match serializer.saveCorpus fname corpus with
  | none =>
      (Except.error (PyError.notImplementedError
        ("called saveIndexedCorpus on class " ++ serializer.name ++
          " which does not support indexing!")), fs)
  | some offsets =>
      (Except.ok (),
        utils.pickle fs offsets (match index_fname with
                           | none => fname ++ ".index"
                           | some f => f))

/-- `IndexedCorpus.__getitem__(docno)` in state-passing style: the result
of the call paired with the handle afterwards.  The body raises
`RuntimeError` when `self.index is None`, and otherwise returns
`self.docbyoffset(self.index[docno])`; no statement assigns to `self`, so
every branch returns the incoming handle. -/
def IndexedCorpus.getitemS {Doc : Type} (self : IndexedCorpus Doc)
    (docno : Int) : Except PyError Doc × IndexedCorpus Doc :=
  match self.index with
  | none =>
      (Except.error (PyError.runtimeError
        "cannot call corpus[docid] without an index"), self)
  | some idx =>
      match pyListGet idx docno with
      | Except.error e => (Except.error e, self)
      | Except.ok off => (Except.ok (self.docbyoffset off), self)

/-- The value of `corpus[docno]`: first component of the state-passing
embedding. -/
def IndexedCorpus.getitem {Doc : Type} (self : IndexedCorpus Doc)
    (docno : Int) : Except PyError Doc :=
  (self.getitemS docno).1

/-! Basic lemmas about the embedded operations. -/

/-- A nonnegative in-range subscript is returned directly. -/
theorem pyListGet_nat {α : Type} (xs : List α) (i : Nat) (h : i < xs.length) :
    pyListGet xs (i : Int) = Except.ok (xs.get ⟨i, h⟩) := by
  have hp : pyIndex xs.length (i : Int) = (i : Int) := by
    unfold pyIndex
    rw [if_neg (by omega)]
  unfold pyListGet
  rw [dif_pos]
  · simp [hp]
  · rw [hp]
    refine ⟨by omega, ?_⟩
    simpa using h

/-- A negative subscript with `-n ≤ i < 0` wraps around to `i + n`. -/
theorem pyListGet_neg {α : Type} (xs : List α) (i : Int)
    (hlo : -(xs.length : Int) ≤ i) (hhi : i < 0) :
    pyListGet xs i =
      Except.ok (xs.get ⟨(i + xs.length).toNat, by omega⟩) := by
  have hp : pyIndex xs.length i = i + xs.length := by
    unfold pyIndex
    rw [if_pos hhi]
  unfold pyListGet
  rw [dif_pos]
  · simp [hp]
  · rw [hp]
    exact ⟨by omega, by omega⟩

/-- A subscript outside `[-n, n)` raises `IndexError`. -/
theorem pyListGet_oob {α : Type} (xs : List α) (i : Int)
    (h : (xs.length : Int) ≤ i ∨ i < -(xs.length : Int)) :
    pyListGet xs i = Except.error PyError.indexError := by
  unfold pyListGet
  rw [dif_neg]
  unfold pyIndex
  rcases h with h | h
  · rw [if_neg (by omega)]
    intro hc
    omega
  · rw [if_pos (by omega)]
    intro hc
    omega

/-- Pickling then unpickling at the same path returns the offsets. -/
theorem unpickle_pickle (fs : FS) (offsets : List Nat) (fname : String) :
    utils.unpickle (utils.pickle fs offsets fname) fname =
      UnpickleResult.ok offsets := by
  simp [utils.unpickle, utils.pickle]

/-! Claims. -/

/-- C1: on a handle with a loaded index, `corpus[i]` for `0 ≤ i < n`
returns exactly `docbyoffset` applied to the offset at position `i` of the
index; when `docbyoffset` inverts the serializer's write (decoding offset
`j` yields document `j` of the saved sequence `D`), the result is `D[i]`. -/
theorem C1_getitem_delegates_to_docbyoffset {Doc : Type}
    (self : IndexedCorpus Doc) (idx : List Nat) (D : List Doc) (i : Nat)
    (hidx : self.index = some idx)
    (hi : i < idx.length) (hD : i < D.length)
    (hinv : ∀ j (hj : j < idx.length) (hjD : j < D.length),
      self.docbyoffset (idx.get ⟨j, hj⟩) = D.get ⟨j, hjD⟩) :
    self.getitem (i : Int) =
      Except.ok (self.docbyoffset (idx.get ⟨i, hi⟩)) ∧
    self.getitem (i : Int) = Except.ok (D.get ⟨i, hD⟩) := by
  have h1 : self.getitem (i : Int) =
      Except.ok (self.docbyoffset (idx.get ⟨i, hi⟩)) := by
    unfold IndexedCorpus.getitem IndexedCorpus.getitemS
    rw [hidx]
    simp [pyListGet_nat idx i hi]
  exact ⟨h1, h1.trans (by rw [hinv i hi hD])⟩

/-- Witness for C1 at a concrete handle: index `[3, 7]`, decoder `10 * o`,
saved documents `[30, 70]`, lookup of document 1. -/
theorem C1_getitem_delegates_to_docbyoffset_witness :
    (IndexedCorpus.mk (fun o => 10 * o) (some [3, 7])).getitem
        ((1 : Nat) : Int) = Except.ok 70 ∧
    (IndexedCorpus.mk (fun o => 10 * o) (some [3, 7])).getitem
        ((1 : Nat) : Int) = Except.ok 70 :=
  have h := C1_getitem_delegates_to_docbyoffset
    (IndexedCorpus.mk (fun o => 10 * o) (some [3, 7])) [3, 7] [30, 70] 1
    rfl (by decide) (by decide)
    (by
      intro j hj hjD
      simp only [List.length_cons, List.length_nil] at hj
      interval_cases j <;> rfl)
  ⟨h.1.trans rfl, h.2.trans rfl⟩

/-- C2: saving a corpus whose serializer reports one offset per document
and then constructing a handle on the same paths loads an index equal to
the offset sequence produced at save time, of length exactly `n`. -/
theorem C2_save_then_load_roundtrips {Doc : Type} (serializer : Serializer Doc)
    (fs : FS) (fname : String) (index_fname : Option String)
    (corpus : List Doc) (docbyoffset : Nat → Doc) (offsets : List Nat)
    (hsave : serializer.saveCorpus fname corpus = some offsets)
    (hlen : offsets.length = corpus.length) :
    (IndexedCorpus.init
        (saveIndexedCorpus serializer fs fname corpus index_fname).2
        docbyoffset fname index_fname).index = some offsets ∧
    offsets.length = corpus.length := by
  refine ⟨?_, hlen⟩
  simp only [saveIndexedCorpus, hsave]
  simp only [IndexedCorpus.init, unpickle_pickle]

/-- Witness for C2: two documents `[9, 9]` saved with offsets `[0, 4]`
on an empty filesystem, default index path. -/
theorem C2_save_then_load_roundtrips_witness :
    (IndexedCorpus.init
        (saveIndexedCorpus (⟨"S", fun _ _ => some [0, 4]⟩ : Serializer Nat)
          (fun _ => none) "c" [9, 9] none).2
        (fun o => o) "c" none).index = some [0, 4] ∧
    List.length [0, 4] = List.length [9, 9] :=
  C2_save_then_load_roundtrips (⟨"S", fun _ _ => some [0, 4]⟩ : Serializer Nat)
    (fun _ => none) "c" none [9, 9] (fun o => o) [0, 4] rfl rfl

/-- C3 counterexample: on a handle with a loaded index of length 1 and the
identity decoder, lookup of the negative docno `-1` does not fail at all;
it returns a document (Python negative-index wrap-around). -/
theorem C3_negative_docno_succeeds_counterexample :
    (IndexedCorpus.mk (fun o => o) (some [5]) : IndexedCorpus Nat).getitem
        (-1) = Except.ok 5 := by
  rfl

/-- C3 (amended): lookup fails with an `IndexError`-class out-of-bounds
condition exactly for docno `≥ n` or docno `< -n`; a negative docno in
`[-n, 0)` wraps around Python-style instead of failing. -/
theorem C3_out_of_range_raises_indexError {Doc : Type}
    (self : IndexedCorpus Doc) (idx : List Nat) (docno : Int)
    (hidx : self.index = some idx)
    (h : (idx.length : Int) ≤ docno ∨ docno < -(idx.length : Int)) :
    self.getitem docno = Except.error PyError.indexError := by
  unfold IndexedCorpus.getitem IndexedCorpus.getitemS
  rw [hidx]
  simp [pyListGet_oob idx docno h]

/-- Witness for the amended C3: index `[5]` of length 1, docno 2. -/
theorem C3_out_of_range_raises_indexError_witness :
    (IndexedCorpus.mk (fun o => o) (some [5]) : IndexedCorpus Nat).getitem 2 =
      Except.error PyError.indexError :=
  C3_out_of_range_raises_indexError
    (IndexedCorpus.mk (fun o => o) (some [5])) [5] 2 rfl (by decide)

/-- C4: on a handle in the NoIndex state, lookup fails with the
`RuntimeError` stating that random access needs an index, for every
docno. -/
theorem C4_no_index_raises_runtimeError {Doc : Type}
    (self : IndexedCorpus Doc) (docno : Int)
    (hidx : self.index = none) :
    self.getitem docno =
      Except.error (PyError.runtimeError
        "cannot call corpus[docid] without an index") := by
  unfold IndexedCorpus.getitem IndexedCorpus.getitemS
  rw [hidx]

/-- Witness for C4: a handle with no index, docno 0. -/
theorem C4_no_index_raises_runtimeError_witness :
    (IndexedCorpus.mk (fun o => o) none : IndexedCorpus Nat).getitem 0 =
      Except.error (PyError.runtimeError
        "cannot call corpus[docid] without an index") :=
  C4_no_index_raises_runtimeError
    (IndexedCorpus.mk (fun o => o) none) 0 rfl

/-- C5: when the serializer's `saveCorpus` returns no offset sequence,
`saveIndexedCorpus` raises `NotImplementedError` naming the serializer and
leaves the filesystem unchanged — in particular no index file is written
at the index path. -/
theorem C5_unsupported_serializer_raises {Doc : Type}
    (serializer : Serializer Doc) (fs : FS) (fname : String)
    (corpus : List Doc) (index_fname : Option String)
    (hunsupported : serializer.saveCorpus fname corpus = none) :
    saveIndexedCorpus serializer fs fname corpus index_fname =
      (Except.error (PyError.notImplementedError
        ("called saveIndexedCorpus on class " ++ serializer.name ++
          " which does not support indexing!")), fs) := by
  unfold saveIndexedCorpus
  rw [hunsupported]

/-- Witness for C5: a serializer named `SvmLightCorpus` reporting
"unsupported" over an empty filesystem. -/
theorem C5_unsupported_serializer_raises_witness :
    saveIndexedCorpus (⟨"SvmLightCorpus", fun _ _ => none⟩ : Serializer Nat)
        (fun _ => none) "c.svmlight" [] none =
      (Except.error (PyError.notImplementedError
        ("called saveIndexedCorpus on class " ++ "SvmLightCorpus" ++
          " which does not support indexing!")), (fun _ => none : FS)) :=
  C5_unsupported_serializer_raises
    (⟨"SvmLightCorpus", fun _ _ => none⟩ : Serializer Nat)
    (fun _ => none) "c.svmlight" [] none rfl

/-- C6: any failure of index deserialization at construction time — a
missing file as much as malformed data — yields the same handle with the
index absent; construction is total (it returns a handle, never an
error). -/
theorem C6_load_failure_absorbed {Doc : Type} (fs : FS)
    (docbyoffset : Nat → Doc) (fname : String) (index_fname : Option String)
    (hfail : ∀ offsets,
      utils.unpickle fs (match index_fname with
                         | none => fname ++ ".index"
                         | some f => f) ≠ UnpickleResult.ok offsets) :
    IndexedCorpus.init fs docbyoffset fname index_fname =
      ⟨docbyoffset, none⟩ := by
  unfold IndexedCorpus.init
  split
  · rename_i offsets heq
    exact absurd heq (hfail offsets)
  · rfl
  · rfl

/-- Witness for C6: empty filesystem (index file missing), default index
path. -/
theorem C6_load_failure_absorbed_witness :
    IndexedCorpus.init (fun _ => none) (fun o => o) "c" none =
      (⟨fun o => o, none⟩ : IndexedCorpus Nat) :=
  C6_load_failure_absorbed (fun _ => none) (fun o => o) "c" none
    (fun offsets h => by simp [utils.unpickle] at h)

/-- C7: with no explicit index path, both `saveIndexedCorpus` and the
constructor behave exactly as if the index path `fname + ".index"` had
been passed explicitly — save and load agree on the index file
location. -/
theorem C7_default_index_path_agreement {Doc : Type}
    (serializer : Serializer Doc) (fs : FS) (fname : String)
    (corpus : List Doc) (docbyoffset : Nat → Doc) :
    saveIndexedCorpus serializer fs fname corpus none =
      saveIndexedCorpus serializer fs fname corpus
        (some (fname ++ ".index")) ∧
    IndexedCorpus.init fs docbyoffset fname none =
      IndexedCorpus.init fs docbyoffset fname
        (some (fname ++ ".index")) :=
  ⟨rfl, rfl⟩

/-- C8: lookup never mutates the handle: the state-passing embedding of
`__getitem__` returns the incoming handle in every branch, so the index
state established at construction survives every lookup, successful or
failing. -/
theorem C8_getitem_preserves_handle {Doc : Type}
    (self : IndexedCorpus Doc) (docno : Int) :
    (self.getitemS docno).2 = self ∧
    (self.getitemS docno).2.index = self.index := by
  have h2 : (self.getitemS docno).2 = self := by
    cases hidx : self.index with
    | none => simp only [IndexedCorpus.getitemS, hidx]
    | some l =>
      cases h : pyListGet l docno with
      | error e => simp only [IndexedCorpus.getitemS, hidx, h]
      | ok off => simp only [IndexedCorpus.getitemS, hidx, h]
  exact ⟨h2, by rw [h2]⟩

/-- C9: an empty offset sequence from `saveCorpus` is not the
"unsupported" signal: the save succeeds, the empty index is pickled to the
index path, and unpickling it back yields the empty offset sequence. -/
theorem C9_empty_offsets_saved {Doc : Type} (serializer : Serializer Doc)
    (fs : FS) (fname : String) (corpus : List Doc)
    (index_fname : Option String)
    (hempty : serializer.saveCorpus fname corpus = some []) :
    saveIndexedCorpus serializer fs fname corpus index_fname =
      (Except.ok (),
        utils.pickle fs [] (match index_fname with
                            | none => fname ++ ".index"
                            | some f => f)) ∧
    utils.unpickle (saveIndexedCorpus serializer fs fname corpus index_fname).2
        (match index_fname with
         | none => fname ++ ".index"
         | some f => f) = UnpickleResult.ok [] := by
  have h1 : saveIndexedCorpus serializer fs fname corpus index_fname =
      (Except.ok (),
        utils.pickle fs [] (match index_fname with
                            | none => fname ++ ".index"
                            | some f => f)) := by
    unfold saveIndexedCorpus
    rw [hempty]
  refine ⟨h1, ?_⟩
  rw [h1]
  exact unpickle_pickle fs [] _

/-- Witness for C9: a serializer returning an empty offset sequence over
an empty filesystem. -/
theorem C9_empty_offsets_saved_witness :
    saveIndexedCorpus (⟨"Empty", fun _ _ => some []⟩ : Serializer Nat)
        (fun _ => none) "c" [] none =
      (Except.ok (), utils.pickle (fun _ => none) [] ("c" ++ ".index")) ∧
    utils.unpickle
        (saveIndexedCorpus (⟨"Empty", fun _ _ => some []⟩ : Serializer Nat)
          (fun _ => none) "c" [] none).2 ("c" ++ ".index") =
      UnpickleResult.ok [] :=
  C9_empty_offsets_saved (⟨"Empty", fun _ _ => some []⟩ : Serializer Nat)
    (fun _ => none) "c" [] none rfl

/-- C10: on a handle with a loaded index of length `n`, lookup of a
negative docno in `[-n, 0)` succeeds, returning `docbyoffset` applied to
the offset at position `n + docno` of the index. -/
theorem C10_negative_docno_wraps {Doc : Type}
    (self : IndexedCorpus Doc) (idx : List Nat) (docno : Int)
    (hidx : self.index = some idx)
    (hlo : -(idx.length : Int) ≤ docno) (hhi : docno < 0) :
    self.getitem docno =
      Except.ok (self.docbyoffset
        (idx.get ⟨(docno + idx.length).toNat, by omega⟩)) := by
  unfold IndexedCorpus.getitem IndexedCorpus.getitemS
  rw [hidx]
  simp only [pyListGet_neg idx docno hlo hhi]

/-- Witness for C10: index `[7, 8]`, docno `-2` wraps to position 0. -/
theorem C10_negative_docno_wraps_witness :
    (IndexedCorpus.mk (fun o => o) (some [7, 8]) : IndexedCorpus Nat).getitem
        (-2) = Except.ok 7 :=
  (C10_negative_docno_wraps
    (IndexedCorpus.mk (fun o => o) (some [7, 8])) [7, 8] (-2)
    rfl (by decide) (by decide)).trans rfl
